import Mathlib

set_option autoImplicit false

/-!
Verification of the Music Analyzer program (src/music_analyzer.py) against its
specification. The program is a single-shot tkinter GUI: a file picker
(`load_file`), one analysis-and-render function (`analyze_file`) that decodes
audio with librosa, computes a fixed sequence of features, draws them on a
5-by-2 matplotlib grid, saves the figure as `<basename>.png`, prints a
completion message and closes the window, and a `close_app` helper.

The embedding below is a shallow one:

* Frequency-band masks and `librosa.fft_frequencies` (lines 98-102 of the
  source) are translated over `ℚ` (the actual code uses floats; every
  comparison involved is exact, so rationals are faithful for the partition
  structure).
* The body of `analyze_file` is translated as an explicit ordered list of
  `Step`s (figure creation, feature computations, panel draws, the canvas
  display, the `savefig` call, the completion print, `close_app`), executed by
  a fold over an `AppState` (files on disk, console lines, window-open flag,
  figure-created flag). Exceptions raised inside the `try` block are modelled
  by an optional index: execution runs the steps before that index and then
  the `except` handler (line 149-150). A decode failure is the `.error` case
  of the decode result (line 27-29).
* `os.path.basename` and `os.path.splitext` are translated faithfully on
  character lists, including splitext's rule that a basename consisting only
  of leading dots has no extension.
* The three `librosa.amplitude_to_db(S[mask], ref=np.max)` call sites
  (lines 100-102) are modelled by the pair (selected rows, evaluated
  reference): librosa evaluates a callable `ref` on the magnitude array it is
  given, so the reference value of each call is the maximum over that band's
  own slice. The dB numbers themselves are floating-point and are not needed
  by any claim.
-/

/-- Spectral magnitudes: one row of STFT magnitudes per frequency bin
(`S = np.abs(librosa.stft(y))`, line 98). -/
abbrev Spectrum := List (List ℚ)

/-- Bass mask from line 100: `(freqs > 0) & (freqs < 150)`. Note the strict
lower bound: the 0 Hz bin is excluded. -/
def inBass (f : ℚ) : Bool := decide (0 < f) && decide (f < 150)

/-- Midrange mask from line 101: `(freqs >= 150) & (freqs < 2000)`. -/
def inMid (f : ℚ) : Bool := decide (150 ≤ f) && decide (f < 2000)

/-- Treble mask from line 102: `freqs >= 2000`. -/
def inTreble (f : ℚ) : Bool := decide (2000 ≤ f)

/-- Number of the three bands a frequency falls into. -/
def bandCount (f : ℚ) : Nat :=
  (if inBass f then 1 else 0) + (if inMid f then 1 else 0) +
    (if inTreble f then 1 else 0)

/-- Translation of `librosa.fft_frequencies(sr=sr)` (line 99): the rFFT bin
frequencies `k * sr / n_fft` for `k = 0, ..., n_fft / 2`; the library default
`n_fft = 2048` is used by the program. -/
def fft_frequencies (sr : ℚ) (nfft : Nat) : List ℚ :=
  (List.range (nfft / 2 + 1)).map (fun k : Nat => (k : ℚ) * sr / (nfft : ℚ))

/-- Row selection `S[mask]` where the boolean mask comes from applying a band
predicate to `freqs` (lines 100-102): keeps the rows of `S` whose bin
frequency satisfies the mask. -/
def bandRows (mask : ℚ → Bool) (freqs : List ℚ) (S : Spectrum) : Spectrum :=
  ((freqs.zip S).filter (fun fr => mask fr.1)).map (fun fr => fr.2)

/-- Evaluation of the callable reference `np.max` on a magnitude array:
the maximum entry, `none` when the array is empty (numpy raises there). -/
def np_max (xss : Spectrum) : Option ℚ := xss.flatten.max?

/-- Argument pair of one `librosa.amplitude_to_db(input, ref=np.max)` call:
the magnitude array handed to the library and the reference value the library
computes from it (a callable `ref` is evaluated on the input itself). -/
structure DbCall where
  input : Spectrum
  ref : Option ℚ
deriving DecidableEq

/-- How librosa resolves `amplitude_to_db(xss, ref=np.max)`: the callable is
applied to the magnitude array itself, so the reference is the maximum of the
very slice being converted. -/
def amplitude_to_db_call (xss : Spectrum) : DbCall := ⟨xss, np_max xss⟩

/-- The dB-conversion call for the bass bar (line 100). -/
def bass_call (freqs : List ℚ) (S : Spectrum) : DbCall :=
  amplitude_to_db_call (bandRows inBass freqs S)

/-- The dB-conversion call for the midrange bar (line 101). -/
def mid_call (freqs : List ℚ) (S : Spectrum) : DbCall :=
  amplitude_to_db_call (bandRows inMid freqs S)

/-- The dB-conversion call for the treble bar (line 102). -/
def treble_call (freqs : List ℚ) (S : Spectrum) : DbCall :=
  amplitude_to_db_call (bandRows inTreble freqs S)

/-- Decoded audio, the result of `librosa.load` (line 26): samples plus a
sample rate. -/
structure Audio where
  y : List ℚ
  sr : ℚ
deriving DecidableEq

/-- Content of the rendered composite figure: a deterministic function of the
input file's basename (the suptitle, line 37-38) and the decoded audio that
every panel is derived from. -/
structure Figure where
  title : String
  audio : Audio
deriving DecidableEq

/-- The eleven feature artifacts of the analysis (the decoded waveform itself
plus ten values computed inside `analyze_file`; the three band energies are
separate scalars). -/
inductive Feature where
  | waveform
  | spectrogram
  | tempo
  | mfcc
  | chroma
  | zcr
  | onsetStrength
  | bassEnergy
  | midEnergy
  | trebleEnergy
  | spectralCentroid
deriving DecidableEq

/-- One observable step of the body of the `try` block of `analyze_file`
(lines 31-147), in source order. `drawPanel r c fs` draws the features `fs`
on the grid axis `ax[r, c]`; `display` is the tkinter canvas embedding
(lines 127-129); `saveFig` is `plt.savefig` (line 143); `printMsg` a console
print; `closeApp` the `close_app()` call (line 147). -/
inductive Step where
  | createFigure
  | computeFeature (f : Feature)
  | drawPanel (r c : Nat) (fs : List Feature)
  | display
  | saveFig (name : String) (content : Figure)
  | printMsg (s : String)
  | closeApp
deriving DecidableEq

/-- State of the application and its environment: files on disk (name paired
with content, newest write first), console lines printed so far, whether the
tkinter window is open (the Idle state of the spec), and whether a matplotlib
figure has been created. -/
structure AppState where
  files : List (String × Figure)
  console : List String
  windowOpen : Bool
  figureCreated : Bool
deriving DecidableEq

/-- Writing a file: overwrites any previous entry of the same name without
warning. -/
def writeFile (n : String) (c : Figure) (fs : List (String × Figure)) :
    List (String × Figure) :=
  (n, c) :: fs.filter (fun p => p.1 ≠ n)

/-- Effect of one step on the state. Feature computations and panel draws
mutate only the in-memory figure, which is not part of the observable state. -/
def applyStep (st : AppState) : Step → AppState
  | .createFigure => { st with figureCreated := true }
  | .computeFeature _ => st
  | .drawPanel _ _ _ => st
  | .display => st
  | .saveFig n c => { st with files := writeFile n c st.files }
  | .printMsg s => { st with console := st.console ++ [s] }
  | .closeApp => { st with windowOpen := false }

/-- Run a list of steps in order. -/
def runSteps (l : List Step) (st : AppState) : AppState := l.foldl applyStep st

/-- Translation of `os.path.basename` (line 37): the characters after the
last path separator. -/
def basenameChars (l : List Char) : List Char :=
  l.foldl (fun acc c => if c = '/' then [] else acc ++ [c]) []

/-- String form of `os.path.basename`. -/
def basename (p : String) : String := ⟨basenameChars p.data⟩

/-- Index of the last occurrence of a character, if any. -/
def lastIndexOf (c : Char) (l : List Char) : Option Nat :=
  (List.range l.length).foldl
    (fun acc i => if l.get? i = some c then some i else acc) none

/-- Root part of `os.path.splitext` (line 142): cut at the last dot, provided
that dot lies after the last separator and the name part before it is not
made of dots only (so `.bashrc` keeps its whole name). -/
def splitextRootChars (l : List Char) : List Char :=
  match lastIndexOf '.' l with
  | none => l
  | some d =>
    let f := match lastIndexOf '/' l with
      | none => 0
      | some s => s + 1
    if f ≤ d ∧ ((List.range (d - f)).any (fun i => l.get? (f + i) ≠ some '.'))
    then l.take d else l

/-- String form of the splitext root. -/
def splitextRoot (s : String) : String := ⟨splitextRootChars s.data⟩

/-- Output file name (line 142): the input's basename with its extension
replaced by `.png`. -/
def outName (p : String) : String := splitextRoot (basename p) ++ (".png")

/-- The completion message printed on line 145. Its text hard-codes the name
`music_analysis_plot.png` regardless of the actual output file. -/
def completionMsg : String :=
  "Analysis complete. The plot has been saved as \x27music_analysis_plot.png\x27."

/-- The rendered figure for a given input. -/
def renderFigure (path : String) (a : Audio) : Figure := ⟨basename path, a⟩

/-- Ordered steps of the `try` block of `analyze_file` (lines 31-147):
figure creation; the nine drawn panels interleaved with the feature
computations feeding them, in source order; the canvas display; the save;
the completion print; the self-close. -/
def analysisSteps (path : String) (a : Audio) : List Step :=
  [ .createFigure,
    .drawPanel 0 0 [.waveform],
    .computeFeature .spectrogram, .drawPanel 0 1 [.spectrogram],
    .computeFeature .tempo, .drawPanel 1 0 [.tempo],
    .computeFeature .mfcc, .drawPanel 1 1 [.mfcc],
    .computeFeature .chroma, .drawPanel 2 0 [.chroma],
    .computeFeature .zcr, .drawPanel 2 1 [.zcr],
    .computeFeature .onsetStrength, .drawPanel 3 0 [.onsetStrength],
    .computeFeature .bassEnergy, .computeFeature .midEnergy,
    .computeFeature .trebleEnergy,
    .drawPanel 3 1 [.bassEnergy, .midEnergy, .trebleEnergy],
    .computeFeature .spectralCentroid, .drawPanel 4 0 [.spectralCentroid],
    .display,
    .saveFig (outName path) (renderFigure path a),
    .printMsg completionMsg,
    .closeApp ]

/-- Translation of `analyze_file` (lines 24-150). `dec` is the outcome of
`librosa.load`; on failure the handler of lines 27-29 prints and returns.
`err` models an exception inside the `try` block: `some (k, msg)` means the
steps before index `k` ran and then the handler of lines 149-150 printed
`"Error analyzing file: " ++ msg`; `none` is a clean run. -/
def analyze_file (dec : Except String Audio) (path : String)
    (err : Option (Nat × String)) (st : AppState) : AppState :=
  match dec with
  | .error e =>
    { st with console := st.console ++ ["Error loading file: " ++ e] }
  | .ok a =>
    match err with
    | none => runSteps (analysisSteps path a) st
    | some (k, msg) =>
      let st' := runSteps ((analysisSteps path a).take k) st
      { st' with console := st'.console ++ ["Error analyzing file: " ++ msg] }

/-- Translation of `load_file` (lines 19-22): `askopenfilename` returns the
empty string on cancel, and `analyze_file` runs only under `if file_path:`. -/
def load_file (dialogPath : String) (dec : Except String Audio)
    (err : Option (Nat × String)) (st : AppState) : AppState :=
  if dialogPath ≠ "" then analyze_file dec dialogPath err st else st

/-- Grid panels drawn on during a run. -/
def panelsOf (l : List Step) : List (Nat × Nat) :=
  l.filterMap (fun s => match s with
    | .drawPanel r c _ => some (r, c)
    | _ => none)

/-- Feature artifacts rendered during a run, in drawing order. -/
def artifactsOf (l : List Step) : List Feature :=
  (l.filterMap (fun s => match s with
    | .drawPanel _ _ fs => some fs
    | _ => none)).flatten

/-- File names written during a run. -/
def namesWritten (path : String) (a : Audio) : List String :=
  (analysisSteps path a).filterMap (fun s => match s with
    | .saveFig n _ => some n
    | _ => none)

/-- The ten axes of the `plt.subplots(5, 2, ...)` grid (line 33). -/
def gridAxes : List (Nat × Nat) :=
  [(0, 0), (0, 1), (1, 0), (1, 1), (2, 0), (2, 1), (3, 0), (3, 1), (4, 0), (4, 1)]

/-- Steps the claim on analysis errors quantifies over: computing a feature,
drawing a panel, or saving the figure. -/
def stepIsAnalysisWork : Step → Bool
  | .computeFeature _ => true
  | .drawPanel _ _ _ => true
  | .saveFig _ _ => true
  | _ => false

/-- A fixed concrete state: empty disk, empty console, window open, no
figure yet — the state right after program start. -/
def st0 : AppState := ⟨[], [], true, false⟩

/-- A fixed concrete decoded audio used in witnesses. -/
def audio0 : Audio := ⟨[], 22050⟩

/-- Concrete bin frequencies used in the band-reference witness. -/
def freqs0 : List ℚ := [0, 100, 1000, 3000]

/-- Concrete spectrogram with one magnitude column per bin. -/
def spec0 : Spectrum := [[1], [2], [3], [4]]

/-- The same spectrogram with only the 0 Hz row changed. -/
def spec1 : Spectrum := [[5], [2], [3], [4]]

/-! ## Helper lemmas -/

/-- Decomposition of the decode-failure message around its fixed head. -/
theorem errLoadDecomp (e : String) :
    "Error loading file: " ++ e = "Error loading file" ++ (": " ++ e) := by
  rw [← String.append_assoc]
  rw [show ("Error loading file: " : String)
      = "Error loading file" ++ ": " from by decide]

/-- Decomposition of the analysis-failure message around its fixed head. -/
theorem errAnalyzeDecomp (msg : String) :
    "Error analyzing file: " ++ msg = "Error analyzing file" ++ (": " ++ msg) := by
  rw [← String.append_assoc]
  rw [show ("Error analyzing file: " : String)
      = "Error analyzing file" ++ ": " from by decide]

/-- The basename computation never returns a path separator. -/
theorem basenameChars_no_sep (l : List Char) : '/' ∉ basenameChars l := by
  unfold basenameChars
  have h2 : ∀ (l acc : List Char), '/' ∉ acc →
      '/' ∉ l.foldl (fun acc c => if c = '/' then [] else acc ++ [c]) acc := by
    intro l
    induction l with
    | nil => intro acc ha; simpa using ha
    | cons c rest ih =>
      intro acc ha
      simp only [List.foldl_cons]
      by_cases hc : c = '/'
      · subst hc; rw [if_pos rfl]; exact ih [] (by simp)
      · rw [if_neg hc]
        refine ih _ ?_
        intro hm
        rcases List.mem_append.1 hm with h1 | h1
        · exact ha h1
        · rw [List.mem_singleton] at h1
          exact hc h1.symm
  exact h2 l [] (by simp)

/-- The splitext root keeps only characters of its input. -/
theorem splitextRootChars_subset (l : List Char) : splitextRootChars l ⊆ l := by
  unfold splitextRootChars
  rcases h : lastIndexOf '.' l with _ | d
  · exact fun x hx => hx
  · dsimp only
    split
    · exact List.take_subset d l
    · exact fun x hx => hx

/-- The output file name is a bare file name: it contains no path separator,
so `plt.savefig` writes it into the current working directory. -/
theorem outName_no_sep (path : String) : '/' ∉ (outName path).data := by
  intro hm
  rw [show (outName path).data
      = splitextRootChars (basenameChars path.data) ++ (".png").data
      from rfl] at hm
  rcases List.mem_append.1 hm with h1 | h1
  · exact basenameChars_no_sep _ (splitextRootChars_subset _ h1)
  · revert h1; decide

/-- A clean run of `analyze_file` on decodable audio: the output file is
written over whatever was there, the completion message is printed, the
window is closed and a figure was created. -/
theorem run_ok_eq (path : String) (a : Audio) (st : AppState) :
    analyze_file (.ok a) path none st
      = ⟨writeFile (outName path) (renderFigure path a) st.files,
          st.console ++ [completionMsg], false, true⟩ := rfl

/-- Exactly one file name is written during a clean run: the output name. -/
theorem namesWritten_eq (path : String) (a : Audio) :
    namesWritten path a = [outName path] := rfl

/-- Overwriting a file with the same content twice equals doing it once. -/
theorem writeFile_idem (n : String) (c : Figure) (fs : List (String × Figure)) :
    writeFile n c (writeFile n c fs) = writeFile n c fs := by
  simp [writeFile, List.filter_filter]

/-- The first rFFT bin frequency of the program's configuration
(`sr = 22050`, `n_fft = 2048`) is 0 Hz. -/
theorem fft_head : (fft_frequencies 22050 2048).head? = some 0 := by
  unfold fft_frequencies
  rw [List.head?_map, List.head?_range]
  norm_num

/-- The 0 Hz frequency is one of the spectral bins of the program's
configuration. -/
theorem zero_mem_fft : (0:ℚ) ∈ fft_frequencies 22050 2048 :=
  List.mem_of_mem_head? (by rw [fft_head]; rfl)

/-! ## Claim theorems -/

/-- C1 counterexample: the claim says every spectral bin, including the 0 Hz
bin, falls into exactly one of the three bands. In the code's actual
configuration the first bin has frequency 0 Hz, and `bandCount 0 = 0`: the
strict mask `freqs > 0` of line 100 puts the 0 Hz bin into no band at all. -/
theorem C1_counterexample :
    (fft_frequencies 22050 2048).head? = some 0 ∧ bandCount 0 = 0 :=
  ⟨fft_head, by decide⟩

/-- C1 (amended): for every sample rate the three bands are pairwise
disjoint, every spectral bin with positive frequency falls into exactly one
of bass = (0, 150), mid = [150, 2000), treble = [2000, ∞) — but the 0 Hz bin
falls into none of them. -/
theorem C1_band_partition (sr : ℚ) (nfft : Nat) (hsr : 0 < sr) :
    ∀ f ∈ fft_frequencies sr nfft,
      (f = 0 ∧ bandCount f = 0) ∨ (0 < f ∧ bandCount f = 1) := by
  intro f hf
  unfold fft_frequencies at hf
  obtain ⟨k, hk, hfk⟩ := List.mem_map.1 hf
  rcases Nat.eq_zero_or_pos nfft with hn | hn
  · left
    rw [← hfk, hn]
    norm_num
    decide
  rcases Nat.eq_zero_or_pos k with hk0 | hk0
  · left
    rw [← hfk, hk0]
    norm_num
    decide
  · right
    have hfpos : 0 < f := by
      rw [← hfk]
      have h1 : (0:ℚ) < (k:ℚ) := by exact_mod_cast hk0
      have h2 : (0:ℚ) < (nfft:ℚ) := by exact_mod_cast hn
      positivity
    refine ⟨hfpos, ?_⟩
    unfold bandCount inBass inMid inTreble
    by_cases h1 : f < 150
    · rw [if_pos (by simp [hfpos, h1]), if_neg (by simp; intro h; linarith),
        if_neg (by simp; linarith)]
    by_cases h2 : f < 2000
    · rw [if_neg (by simp [h1]),
        if_pos (by simp; constructor <;> [linarith; exact h2]),
        if_neg (by simp; linarith)]
    · rw [if_neg (by simp [h1]), if_neg (by simp; intro h; linarith),
        if_pos (by simp; linarith)]

/-- C1 witness: the amended theorem applied at the program's configuration,
at the 0 Hz bin. -/
theorem C1_band_partition_witness :
    ((0:ℚ) = 0 ∧ bandCount 0 = 0) ∨ (0 < (0:ℚ) ∧ bandCount 0 = 1) :=
  C1_band_partition 22050 2048 (by norm_num) 0 zero_mem_fft

/-- C2 counterexample: the claim says eleven plot panels are laid out on the
composite figure; on a concrete run only nine grid axes are ever drawn on. -/
theorem C2_counterexample :
    (panelsOf (analysisSteps ("song.mp3") audio0)).length = 9
    ∧ (panelsOf (analysisSteps ("song.mp3") audio0)).length ≠ 11 := by
  constructor <;> decide

/-- C2 (amended): every successful run computes eleven distinct feature
artifacts (the decoded waveform plus ten computed features, the three band
energies counted separately), and renders them on nine distinct panels of
the one composite figure, whose 5-by-2 grid has ten axes (one left unused). -/
theorem C2_features_panels (path : String) (a : Audio) :
    artifactsOf (analysisSteps path a)
      = [.waveform, .spectrogram, .tempo, .mfcc, .chroma, .zcr,
          .onsetStrength, .bassEnergy, .midEnergy, .trebleEnergy,
          .spectralCentroid]
    ∧ (artifactsOf (analysisSteps path a)).length = 11
    ∧ (artifactsOf (analysisSteps path a)).Nodup
    ∧ panelsOf (analysisSteps path a)
      = [(0, 0), (0, 1), (1, 0), (1, 1), (2, 0), (2, 1), (3, 0), (3, 1), (4, 0)]
    ∧ (panelsOf (analysisSteps path a)).length = 9
    ∧ (panelsOf (analysisSteps path a)).Nodup
    ∧ panelsOf (analysisSteps path a) ⊆ gridAxes
    ∧ gridAxes.length = 10 := by
  refine ⟨rfl, rfl, ?_, rfl, rfl, ?_, ?_, rfl⟩
  · rw [show artifactsOf (analysisSteps path a)
      = [.waveform, .spectrogram, .tempo, .mfcc, .chroma, .zcr,
          .onsetStrength, .bassEnergy, .midEnergy, .trebleEnergy,
          .spectralCentroid] from rfl]
    decide
  · rw [show panelsOf (analysisSteps path a)
      = [(0, 0), (0, 1), (1, 0), (1, 1), (2, 0), (2, 1), (3, 0), (3, 1), (4, 0)]
      from rfl]
    decide
  · rw [show panelsOf (analysisSteps path a)
      = [(0, 0), (0, 1), (1, 0), (1, 1), (2, 0), (2, 1), (3, 0), (3, 1), (4, 0)]
      from rfl]
    decide

/-- C3: a decode failure changes nothing but the console, to which exactly
one line containing "Error loading file" is appended: no file is written, no
figure is created, and the window stays as it was (open, for another
attempt). -/
theorem C3_decode_failure (e path : String) (errp : Option (Nat × String))
    (st : AppState) :
    analyze_file (.error e) path errp st
      = { st with console := st.console ++ ["Error loading file: " ++ e] }
    ∧ (analyze_file (.error e) path errp st).files = st.files
    ∧ (analyze_file (.error e) path errp st).windowOpen = st.windowOpen
    ∧ (analyze_file (.error e) path errp st).figureCreated = st.figureCreated
    ∧ (∃ post, "Error loading file: " ++ e = "Error loading file" ++ post) :=
  ⟨rfl, rfl, rfl, rfl, ⟨": " ++ e, errLoadDecomp e⟩⟩

/-- C4: a clean run on decodable audio writes exactly one file, named after
the input's basename with its extension replaced by `.png`, as a bare name
(no separator, hence the current working directory), and prints the
completion message. -/
theorem C4_success_output (path : String) (a : Audio) (st : AppState) :
    (analyze_file (.ok a) path none st).files
      = writeFile (outName path) (renderFigure path a) st.files
    ∧ namesWritten path a = [outName path]
    ∧ outName path = splitextRoot (basename path) ++ (".png")
    ∧ '/' ∉ (outName path).data
    ∧ completionMsg ∈ (analyze_file (.ok a) path none st).console :=
  ⟨rfl, rfl, rfl, outName_no_sep path, by rw [run_ok_eq]; simp⟩

/-- C5: every clean run ends with the window closed (the `close_app()` call
on line 147 is unconditionally the last step), so a successful run never
returns to the Idle state. -/
theorem C5_success_closes_window (path : String) (a : Audio) (st : AppState) :
    (analyze_file (.ok a) path none st).windowOpen = false := rfl

/-- C6: an exception raised at any feature-computation, panel-drawing or
figure-saving step is caught by the single handler of lines 149-150: the
console gains exactly one line, which extends "Error analyzing file", and
the window state is untouched (the process survives and is back at Idle). -/
theorem C6_analysis_error_handler (path : String) (a : Audio) (st : AppState)
    (k : Nat) (msg : String)
    (hk : ((analysisSteps path a).get? k).any stepIsAnalysisWork = true) :
    (analyze_file (.ok a) path (some (k, msg)) st).console
      = st.console ++ ["Error analyzing file: " ++ msg]
    ∧ (analyze_file (.ok a) path (some (k, msg)) st).windowOpen = st.windowOpen
    ∧ (∃ post, "Error analyzing file: " ++ msg
        = "Error analyzing file" ++ post) := by
  have hk24 : k < 24 := by
    by_contra h
    rw [List.get?_eq_none.2
      (by rw [show (analysisSteps path a).length = 24 from rfl]; omega)] at hk
    exact Bool.noConfusion hk
  interval_cases k
  all_goals first
    | exact Bool.noConfusion hk
    | exact ⟨rfl, rfl, ⟨": " ++ msg, errAnalyzeDecomp msg⟩⟩

/-- C6 witness: the handler theorem at a concrete error during the third
step (the spectrogram computation). -/
theorem C6_analysis_error_handler_witness :
    (analyze_file (.ok audio0) ("song.mp3") (some (2, "boom")) st0).console
      = st0.console ++ ["Error analyzing file: " ++ "boom"]
    ∧ (analyze_file (.ok audio0) ("song.mp3") (some (2, "boom")) st0).windowOpen
      = st0.windowOpen
    ∧ (∃ post, "Error analyzing file: " ++ "boom"
        = "Error analyzing file" ++ post) :=
  C6_analysis_error_handler ("song.mp3") audio0 st0 2 ("boom") rfl

/-- C7: running the analysis twice with the same decoded input and working
directory leaves the file system exactly as one run does — the second run
silently overwrites the first output with identical content. -/
theorem C7_rerun_idempotent (path : String) (a : Audio) (st : AppState) :
    (analyze_file (.ok a) path none
        (analyze_file (.ok a) path none st)).files
      = (analyze_file (.ok a) path none st).files
    ∧ (analyze_file (.ok a) path none st).files
      = writeFile (outName path) (renderFigure path a) st.files :=
  ⟨writeFile_idem (outName path) (renderFigure path a) st.files, rfl⟩

/-- C8: cancelling the file dialog (an empty path, which is falsy in
Python) leaves the whole application state unchanged: no decode, no
analysis, no file, no console line, window still open. -/
theorem C8_cancel_noop (dec : Except String Audio)
    (errp : Option (Nat × String)) (st : AppState) :
    load_file ("") dec errp st = st := rfl

/-- C9: every clean run prints a completion message whose text contains the
literal name `music_analysis_plot.png`, yet the file actually written is
named after the input's basename — so whenever that basename root is not
`music_analysis_plot`, the printed name was never written. -/
theorem C9_completion_message_mismatch (path : String) (a : Audio)
    (st : AppState) :
    completionMsg ∈ (analyze_file (.ok a) path none st).console
    ∧ (∃ pre post, completionMsg = pre ++ "music_analysis_plot.png" ++ post)
    ∧ (splitextRoot (basename path) ≠ "music_analysis_plot" →
        "music_analysis_plot.png" ∉ namesWritten path a) := by
  refine ⟨by rw [run_ok_eq]; simp,
    ⟨"Analysis complete. The plot has been saved as \x27", "\x27.",
      by decide⟩, ?_⟩
  intro hroot hmem
  rw [namesWritten_eq, List.mem_singleton] at hmem
  apply hroot
  have hdata := congrArg String.data hmem
  rw [show (outName path).data
      = (splitextRoot (basename path)).data ++ (".png").data
      from String.data_append _ _] at hdata
  have hsplit : ("music_analysis_plot").data ++ (".png").data
      = (splitextRoot (basename path)).data ++ (".png").data := by
    rw [← hdata]
    decide
  exact (String.ext (List.append_cancel_right hsplit)).symm

/-- C9 witness: for the concrete input `song.mp3` the file named by the
completion message is not among the files written. -/
theorem C9_completion_message_mismatch_witness :
    "music_analysis_plot.png" ∉ namesWritten ("song.mp3") audio0 :=
  (C9_completion_message_mismatch ("song.mp3") audio0 st0).2.2 (by decide)

/-- C10: each of the three `amplitude_to_db` calls of lines 100-102 receives
`ref = np.max`, which librosa evaluates on the slice it is given: the
reference of each call is the maximum of that band's own rows. Consequently
each bar is normalized independently: whenever two spectrograms agree on a
band's rows, that band's entire dB call — input and reference — is
identical, no matter how the other bins differ. -/
theorem C10_band_db_refs (freqs : List ℚ) (S T : Spectrum)
    (hb : bandRows inBass freqs S = bandRows inBass freqs T)
    (hm : bandRows inMid freqs S = bandRows inMid freqs T)
    (ht : bandRows inTreble freqs S = bandRows inTreble freqs T) :
    ((bass_call freqs S).ref = np_max (bandRows inBass freqs S)
      ∧ (mid_call freqs S).ref = np_max (bandRows inMid freqs S)
      ∧ (treble_call freqs S).ref = np_max (bandRows inTreble freqs S))
    ∧ (bass_call freqs S = bass_call freqs T
      ∧ mid_call freqs S = mid_call freqs T
      ∧ treble_call freqs S = treble_call freqs T) :=
  ⟨⟨rfl, rfl, rfl⟩,
    ⟨by unfold bass_call; rw [hb],
      by unfold mid_call; rw [hm],
      by unfold treble_call; rw [ht]⟩⟩

/-- C10 witness: with bins at 0, 100, 1000 and 3000 Hz, two spectrograms
differing only in the 0 Hz row (which no band selects) produce identical dB
calls for all three bands. -/
theorem C10_band_db_refs_witness :
    (((bass_call freqs0 spec0).ref = np_max (bandRows inBass freqs0 spec0)
      ∧ (mid_call freqs0 spec0).ref = np_max (bandRows inMid freqs0 spec0)
      ∧ (treble_call freqs0 spec0).ref = np_max (bandRows inTreble freqs0 spec0))
    ∧ (bass_call freqs0 spec0 = bass_call freqs0 spec1
      ∧ mid_call freqs0 spec0 = mid_call freqs0 spec1
      ∧ treble_call freqs0 spec0 = treble_call freqs0 spec1)) :=
  C10_band_db_refs freqs0 spec0 spec1 (by decide) (by decide) (by decide)
